import Mathlib

/-!
Shallow embedding of src/src/compound_publisher.cpp (SICK safeVisionary ROS1
driver, CompoundPublisher).  The per-frame entry point CompoundPublisher::publish
fans a decoded sensor frame out into ten output channels, each gated on the
transport's live subscriber count.  Machine scalars are modelled as Nat
(bit patterns for the 32-bit floats of the point cloud, since the packing code
copies raw bytes via memcpy and never interprets them numerically); the
native byte order of the target is little-endian, matching the message's
is_bigendian = false flag.  Values that are only ever copied field-by-field
(camera parameters, IMU samples, status words) are modelled as Int or Nat.
-/

namespace SickSafeVisionary

/-- Little-endian byte serialization of the low `n` bytes of `v`: the native
memory image of an `n`-byte unsigned machine integer holding `v`. -/
def bytesLE : Nat → Nat → List Nat
  | 0, _ => []
  | n + 1, v => (v % 256) :: bytesLE n (v / 256)

/-- Model of memcpy into an existing buffer: write the byte list `bs` into
`data` starting at byte position `pos`.  Positions beyond the end of `data`
leave it unchanged (List.set is the identity out of range); claims about
bounds are stated separately. -/
def writeBytes (data : List Nat) (pos : Nat) : List Nat → List Nat
  | [] => data
  | b :: bs => writeBytes (data.set pos b) (pos + 1) bs

/-- Byte image of a vector of `w`-byte unsigned samples, in order. -/
def vecBytes (w : Nat) : List Nat → List Nat
  | [] => []
  | v :: vs => bytesLE w v ++ vecBytes w vs

/-! ## Data model: the sensor frame (visionary::SafeVisionaryData interface) -/

/-- Message metadata: std_msgs::Header (timestamp plus frame identifier). -/
structure Header where
  stamp : Nat
  frame_id : String
  deriving DecidableEq, Repr

/-- Camera calibration parameters of the frame
(frame_data.getCameraParameters()). -/
structure CameraParameters where
  cx : Int
  cy : Int
  fx : Int
  fy : Int
  k1 : Int
  k2 : Int
  p1 : Int
  p2 : Int
  k3 : Int
  deriving DecidableEq, Repr

/-- One 3-D point produced by the point-generation/transform black boxes:
struct of three 32-bit floats, each held here as its 4-byte bit pattern,
since publishPointCloud only ever memcpys its 12-byte memory image. -/
structure PointXYZ where
  x : Nat
  y : Nat
  z : Nat
  deriving DecidableEq, Repr

/-- Three-component inertial sample (angular velocity or acceleration). -/
structure IMUVec where
  X : Int
  Y : Int
  Z : Int
  deriving DecidableEq, Repr

/-- Quaternion orientation sample. -/
structure IMUQuat where
  X : Int
  Y : Int
  Z : Int
  W : Int
  deriving DecidableEq, Repr

/-- Inertial record of the frame (frame_data.getIMUData()). -/
structure IMUData where
  angularVelocity : IMUVec
  acceleration : IMUVec
  orientation : IMUQuat
  deriving DecidableEq, Repr

/-- General-status bitfields of the device-status record. -/
structure GeneralStatus where
  applicationError : Bool
  contaminationError : Bool
  contaminationWarning : Bool
  deadZoneDetection : Bool
  deviceError : Bool
  temperatureWarning : Bool
  runModeActive : Bool
  waitForCluster : Bool
  waitForInput : Bool
  deriving DecidableEq, Repr

/-- Active monitoring-case numbers of the device-status record. -/
structure ActiveMonitoringCase where
  currentCaseNumberMonitoringCase1 : Nat
  currentCaseNumberMonitoringCase2 : Nat
  currentCaseNumberMonitoringCase3 : Nat
  currentCaseNumberMonitoringCase4 : Nat
  deriving DecidableEq, Repr

/-- Device-status record of the frame (frame_data.getDeviceStatusData()). -/
structure DeviceStatusData where
  generalStatus : GeneralStatus
  COPNonSaftyRelated : Nat
  COPSaftyRelated : Nat
  COPResetRequired : Nat
  activeMonitoringCase : ActiveMonitoringCase
  contaminationLevel : Nat
  deriving DecidableEq, Repr

/-- Per-pin flags of one universal-I/O sub-record (configured, direction,
input-value or output-value block; pins 5 to 8). -/
structure UniversalIOPins where
  pin5 : Bool
  pin6 : Bool
  pin7 : Bool
  pin8 : Bool
  deriving DecidableEq, Repr

/-- OSSD (safety output) state block of the local I/O record. -/
structure OssdsState where
  stateOSSD1A : Nat
  stateOSSD1B : Nat
  stateOSSD2A : Nat
  stateOSSD2B : Nat
  deriving DecidableEq, Repr

/-- Local I/O record of the frame (frame_data.getLocalIOData()). -/
structure LocalIOData where
  universalIOConfigured : UniversalIOPins
  universalIODirection : UniversalIOPins
  universalIOInputValue : UniversalIOPins
  universalIOOutputValue : UniversalIOPins
  ossdsState : OssdsState
  ossdsDynCount : Nat
  ossdsCRC : Nat
  ossdsIOStatus : Nat
  dynamicSpeedA : Nat
  dynamicSpeedB : Nat
  DynamicValidFlags : Nat
  deriving DecidableEq, Repr

/-- Result block of one region-of-interest entry. -/
structure RoiResult where
  distanceSafe : Bool
  distanceValid : Bool
  resultSafe : Bool
  resultValid : Bool
  taskResult : Nat
  deriving DecidableEq, Repr

/-- Safety-related bitfields of one region-of-interest entry
(roi.safetyRelatedData.tMembers). -/
structure RoiSafetyMembers where
  invalidDueToInvalidPixels : Bool
  invalidDueToVariance : Bool
  invalidDueToOverexposure : Bool
  invalidDueToUnderexposure : Bool
  invalidDueToTemporalVariance : Bool
  invalidDueToOutsideOfMeasurementRange : Bool
  invalidDueToRetroReflectorInterference : Bool
  contaminationError : Bool
  qualityClass : Nat
  slotActive : Bool
  deriving DecidableEq, Repr

/-- One region-of-interest entry of the frame. -/
structure Roi where
  id : Nat
  distanceValue : Nat
  result : RoiResult
  safetyMembers : RoiSafetyMembers
  deriving DecidableEq, Repr

/-- One field-evaluation entry of the frame. -/
structure FieldInformation where
  fieldID : Nat
  fieldSetID : Nat
  fieldActive : Bool
  fieldResult : Nat
  evalMethod : Nat
  deriving DecidableEq, Repr

/-- The decoded sensor frame (the visionary::SafeVisionaryData interface used
by compound_publisher.cpp).  The field pointVec models the output of the two
black-box calls frame_data.generatePointCloud and
frame_data.transformPointCloud: one 3-D point list in the target reference
frame (those routines live in the external sick_safevisionary_base library
and are consumed here purely at their interface). -/
structure SafeVisionaryData where
  height : Nat
  width : Nat
  cameraParameters : CameraParameters
  distanceMap : List Nat
  intensityMap : List Nat
  stateMap : List Nat
  imuData : IMUData
  deviceStatus : Nat
  deviceStatusData : DeviceStatusData
  localIOData : LocalIOData
  roiData : List Roi
  fieldInformation : List FieldInformation
  pointVec : List PointXYZ
  deriving DecidableEq, Repr

/-! ## Output records (the ROS messages built by the transcode routines) -/

/-- Output record of the calibration channel (sensor_msgs::CameraInfo, the
fields compound_publisher.cpp assigns). -/
structure CameraInfo where
  header : Header
  height : Nat
  width : Nat
  D : List Int
  K : List Int
  deriving DecidableEq, Repr

/-- One sensor_msgs::PointField entry of the point-cloud message. -/
structure PointField where
  name : String
  offset : Nat
  datatype : Nat
  count : Nat
  deriving DecidableEq, Repr

/-- Output record of the point-cloud channel (sensor_msgs::PointCloud2). -/
structure PointCloud2 where
  header : Header
  height : Nat
  width : Nat
  is_dense : Bool
  is_bigendian : Bool
  fields : List PointField
  point_step : Nat
  row_step : Nat
  data : List Nat
  deriving DecidableEq, Repr

/-- Output record of the raster-image channels (sensor_msgs::Image as built
by cv_bridge from a cv::Mat of height x width single-channel samples). -/
structure ImageMsg where
  header : Header
  height : Nat
  width : Nat
  encoding : String
  data : List Nat
  deriving DecidableEq, Repr

/-- Output record of the inertial channel (sensor_msgs::Imu, assigned
fields only). -/
structure ImuMsg where
  header : Header
  angular_velocity : IMUVec
  linear_acceleration : IMUVec
  orientation : IMUQuat
  deriving DecidableEq, Repr

/-- Output record of the device-status channel
(sick_safevisionary_msgs::DeviceStatus). -/
structure DeviceStatusMsg where
  header : Header
  status : Nat
  general_status : GeneralStatus
  COP_non_safety_related : Nat
  COP_safety_related : Nat
  COP_reset_required : Nat
  monitoring_case_1 : Nat
  monitoring_case_2 : Nat
  monitoring_case_3 : Nat
  monitoring_case_4 : Nat
  contamination_level : Nat
  deriving DecidableEq, Repr

/-- Output record of the I/O channel (sick_safevisionary_msgs::CameraIO). -/
structure CameraIOMsg where
  header : Header
  configured : UniversalIOPins
  direction : UniversalIOPins
  input_values : UniversalIOPins
  output_values : UniversalIOPins
  ossds_state : OssdsState
  ossds_dyn_count : Nat
  ossds_crc : Nat
  ossds_io_status : Nat
  dynamic_speed_a : Nat
  dynamic_speed_b : Nat
  dynamic_valid_flags : Nat
  deriving DecidableEq, Repr

/-- One region-of-interest output entry (sick_safevisionary_msgs::ROI). -/
structure ROIMsg where
  id : Nat
  distance_value : Nat
  result_data : RoiResult
  safety_data : RoiSafetyMembers
  deriving DecidableEq, Repr

/-- Output record of the region-of-interest channel
(sick_safevisionary_msgs::ROIArray). -/
structure ROIArrayMsg where
  header : Header
  rois : List ROIMsg
  deriving DecidableEq, Repr

/-- One field-evaluation output entry
(sick_safevisionary_msgs::FieldInformation). -/
structure FieldInformationMsg where
  field_id : Nat
  field_set_id : Nat
  field_active : Bool
  field_result : Nat
  eval_method : Nat
  deriving DecidableEq, Repr

/-- Output record of the field-evaluation channel
(sick_safevisionary_msgs::FieldInformationArray). -/
structure FieldInformationArrayMsg where
  header : Header
  fields : List FieldInformationMsg
  deriving DecidableEq, Repr

/-! ## Calibration channel: CompoundPublisher::publishCameraInfo -/

/-- Transcode routine of the calibration channel.  D starts as
std::vector of five zeros then D[0..4] are assigned k1, k2, p1, p2, k3;
K is the zero-initialized 3x3 projection array with K[0], K[2], K[4], K[5]
assigned fx, cx, fy, cy and K[8] assigned the literal 1. -/
def publishCameraInfo (header : Header) (f : SafeVisionaryData) : CameraInfo :=
  { header := header
    height := f.height
    width := f.width
    D := (((((List.replicate 5 (0 : Int)).set 0 f.cameraParameters.k1).set 1
      f.cameraParameters.k2).set 2 f.cameraParameters.p1).set 3
      f.cameraParameters.p2).set 4 f.cameraParameters.k3
    K := (((((List.replicate 9 (0 : Int)).set 0 f.cameraParameters.fx).set 2
      f.cameraParameters.cx).set 4 f.cameraParameters.fy).set 5
      f.cameraParameters.cy).set 8 1 }

/-! ## Point-cloud channel: CompoundPublisher::publishPointCloud -/

/-- sizeof(float) on the target. -/
def floatSize : Nat := 4

/-- sizeof(uint16_t) on the target. -/
def uint16Size : Nat := 2

/-- Value of the sensor_msgs::PointField::FLOAT32 datatype constant. -/
def FLOAT32 : Nat := 7

/-- Value of the sensor_msgs::PointField::UINT16 datatype constant. -/
def UINT16 : Nat := 4

/-- The point stride: the offset accumulator after the field-description
loop, three float fields then one uint16 field (3 x 4 + 2 = 14 bytes). -/
def pcPointStep : Nat := 3 * floatSize + uint16Size

/-- The four field descriptors of the point-cloud message.  The loop
assigns offsets 0, sizeof(float), 2 x sizeof(float) to the FLOAT32 fields
x, y, z, then the intensity field gets offset 3 x sizeof(float) and
datatype UINT16; every field has count 1. -/
def pcFields : List PointField :=
  [{ name := "x", offset := 0, datatype := FLOAT32, count := 1 },
   { name := "y", offset := floatSize, datatype := FLOAT32, count := 1 },
   { name := "z", offset := 2 * floatSize, datatype := FLOAT32, count := 1 },
   { name := "intensity", offset := 3 * floatSize, datatype := UINT16, count := 1 }]

/-- row_step of the point-cloud message: point_step x width. -/
def pcRowStep (f : SafeVisionaryData) : Nat := pcPointStep * f.width

/-- Size in bytes of the allocated point-cloud data buffer:
cloud_msg data is resized to height x row_step. -/
def pcDataSize (f : SafeVisionaryData) : Nat := f.height * pcRowStep f

/-- The 12-byte memory image of one visionary::PointXYZ (three consecutive
32-bit floats, no padding), as memcpyed by the packing loop. -/
def pointBytes (p : PointXYZ) : List Nat :=
  bytesLE floatSize p.x ++ bytesLE floatSize p.y ++ bytesLE floatSize p.z

/-- The packing loop of publishPointCloud: for each index i it memcpys the
12-byte point image to byte offset i x point_step + fields[0].offset (= 0)
and the 2-byte intensity sample to i x point_step + fields[3].offset
(= 12), advancing both iterators in lockstep. -/
def packLoop : List PointXYZ → List Nat → Nat → List Nat → List Nat
  | p :: ps, v :: vs, i, data =>
      packLoop ps vs (i + 1)
        (writeBytes (writeBytes data (i * pcPointStep) (pointBytes p))
          (i * pcPointStep + 3 * floatSize) (bytesLE uint16Size v))
  | _, _, _, data => data

/-- Events of one publishPointCloud call, in execution order: buffer
allocation (the data resize), the generate and transform black-box calls,
the intensity/point size comparison, and the final publish. -/
inductive PCEvent where
  | alloc (size : Nat)
  | generateCall
  | transformCall
  | checkMismatch (mismatch : Bool)
  | publishCloud
  deriving DecidableEq, Repr

/-- Transcode routine of the point-cloud channel, paired with its event
trace.  Mirrors the statement order of the source: the message is built and
its data buffer resized to height x row_step first, then generatePointCloud
and transformPointCloud are called, then the intensity-map size is compared
with the point-vector size; on mismatch the routine logs and returns
without publishing, otherwise the packing loop runs and the message is
published. -/
def publishPointCloudT (header : Header) (f : SafeVisionaryData) :
    Option PointCloud2 × List PCEvent :=
  let data0 := List.replicate (pcDataSize f) 0
  let pts := f.pointVec
  let ev0 := [PCEvent.alloc (pcDataSize f), PCEvent.generateCall, PCEvent.transformCall]
  if f.intensityMap.length ≠ pts.length then
    (none, ev0 ++ [PCEvent.checkMismatch true])
  else
    (some { header := header
            height := f.height
            width := f.width
            is_dense := false
            is_bigendian := false
            fields := pcFields
            point_step := pcPointStep
            row_step := pcRowStep f
            data := packLoop pts f.intensityMap 0 data0 },
     ev0 ++ [PCEvent.checkMismatch false, PCEvent.publishCloud])

/-- The published point-cloud record of one frame (none when the routine
returned early on the size mismatch). -/
def publishPointCloud (header : Header) (f : SafeVisionaryData) : Option PointCloud2 :=
  (publishPointCloudT header f).1

/-- The event trace of one publishPointCloud call. -/
def pcTrace (header : Header) (f : SafeVisionaryData) : List PCEvent :=
  (publishPointCloudT header f).2

/-! ## Inertial channel: CompoundPublisher::publishIMUData -/

/-- Transcode routine of the inertial channel: field-by-field copy of the
frame's IMU record. -/
def publishIMUData (header : Header) (f : SafeVisionaryData) : ImuMsg :=
  { header := header
    angular_velocity := { X := f.imuData.angularVelocity.X
                          Y := f.imuData.angularVelocity.Y
                          Z := f.imuData.angularVelocity.Z }
    linear_acceleration := { X := f.imuData.acceleration.X
                             Y := f.imuData.acceleration.Y
                             Z := f.imuData.acceleration.Z }
    orientation := { X := f.imuData.orientation.X
                     Y := f.imuData.orientation.Y
                     Z := f.imuData.orientation.Z
                     W := f.imuData.orientation.W } }

/-! ## Raster-image channels: Vec16ToImage / Vec8ToImage and their callers -/

/-- Image conversion helper for 16-bit rasters: a cv::Mat of height x width
CV_16UC1 samples is allocated (its backing store modelled as zero bytes)
and memcpy copies vec.size() x sizeof(uint16_t) bytes of the source vector
into it, with no length check against the raster size. -/
def Vec16ToImage (header : Header) (f : SafeVisionaryData) (vec : List Nat) : ImageMsg :=
  { header := header
    height := f.height
    width := f.width
    encoding := "16UC1"
    data := writeBytes (List.replicate (f.height * f.width * uint16Size) 0) 0
      (vecBytes uint16Size vec) }

/-- Image conversion helper for 8-bit rasters: a cv::Mat of height x width
CV_8UC1 samples, memcpy of vec.size() bytes, no length check. -/
def Vec8ToImage (header : Header) (f : SafeVisionaryData) (vec : List Nat) : ImageMsg :=
  { header := header
    height := f.height
    width := f.width
    encoding := "8UC1"
    data := writeBytes (List.replicate (f.height * f.width * 1) 0) 0
      (vecBytes 1 vec) }

/-- Transcode routine of the depth-image channel: wraps the distance map. -/
def publishDepthImage (header : Header) (f : SafeVisionaryData) : ImageMsg :=
  Vec16ToImage header f f.distanceMap

/-- Transcode routine of the intensity-image channel: wraps the intensity
map. -/
def publishIntensityImage (header : Header) (f : SafeVisionaryData) : ImageMsg :=
  Vec16ToImage header f f.intensityMap

/-- Transcode routine of the state-image channel: wraps the state map. -/
def publishStateMap (header : Header) (f : SafeVisionaryData) : ImageMsg :=
  Vec8ToImage header f f.stateMap

/-! ## Device-status channel: CompoundPublisher::publishDeviceStatus -/

/-- Transcode routine of the device-status channel: field-by-field copy. -/
def publishDeviceStatus (header : Header) (f : SafeVisionaryData) : DeviceStatusMsg :=
  { header := header
    status := f.deviceStatus
    general_status := { applicationError := f.deviceStatusData.generalStatus.applicationError
                        contaminationError := f.deviceStatusData.generalStatus.contaminationError
                        contaminationWarning := f.deviceStatusData.generalStatus.contaminationWarning
                        deadZoneDetection := f.deviceStatusData.generalStatus.deadZoneDetection
                        deviceError := f.deviceStatusData.generalStatus.deviceError
                        temperatureWarning := f.deviceStatusData.generalStatus.temperatureWarning
                        runModeActive := f.deviceStatusData.generalStatus.runModeActive
                        waitForCluster := f.deviceStatusData.generalStatus.waitForCluster
                        waitForInput := f.deviceStatusData.generalStatus.waitForInput }
    COP_non_safety_related := f.deviceStatusData.COPNonSaftyRelated
    COP_safety_related := f.deviceStatusData.COPSaftyRelated
    COP_reset_required := f.deviceStatusData.COPResetRequired
    monitoring_case_1 := f.deviceStatusData.activeMonitoringCase.currentCaseNumberMonitoringCase1
    monitoring_case_2 := f.deviceStatusData.activeMonitoringCase.currentCaseNumberMonitoringCase2
    monitoring_case_3 := f.deviceStatusData.activeMonitoringCase.currentCaseNumberMonitoringCase3
    monitoring_case_4 := f.deviceStatusData.activeMonitoringCase.currentCaseNumberMonitoringCase4
    contamination_level := f.deviceStatusData.contaminationLevel }

/-! ## I/O channel: CompoundPublisher::publishIOs -/

/-- Transcode routine of the I/O channel: field-by-field copy of the local
I/O record. -/
def publishIOs (header : Header) (f : SafeVisionaryData) : CameraIOMsg :=
  { header := header
    configured := { pin5 := f.localIOData.universalIOConfigured.pin5
                    pin6 := f.localIOData.universalIOConfigured.pin6
                    pin7 := f.localIOData.universalIOConfigured.pin7
                    pin8 := f.localIOData.universalIOConfigured.pin8 }
    direction := { pin5 := f.localIOData.universalIODirection.pin5
                   pin6 := f.localIOData.universalIODirection.pin6
                   pin7 := f.localIOData.universalIODirection.pin7
                   pin8 := f.localIOData.universalIODirection.pin8 }
    input_values := { pin5 := f.localIOData.universalIOInputValue.pin5
                      pin6 := f.localIOData.universalIOInputValue.pin6
                      pin7 := f.localIOData.universalIOInputValue.pin7
                      pin8 := f.localIOData.universalIOInputValue.pin8 }
    output_values := { pin5 := f.localIOData.universalIOOutputValue.pin5
                       pin6 := f.localIOData.universalIOOutputValue.pin6
                       pin7 := f.localIOData.universalIOOutputValue.pin7
                       pin8 := f.localIOData.universalIOOutputValue.pin8 }
    ossds_state := { stateOSSD1A := f.localIOData.ossdsState.stateOSSD1A
                     stateOSSD1B := f.localIOData.ossdsState.stateOSSD1B
                     stateOSSD2A := f.localIOData.ossdsState.stateOSSD2A
                     stateOSSD2B := f.localIOData.ossdsState.stateOSSD2B }
    ossds_dyn_count := f.localIOData.ossdsDynCount
    ossds_crc := f.localIOData.ossdsCRC
    ossds_io_status := f.localIOData.ossdsIOStatus
    dynamic_speed_a := f.localIOData.dynamicSpeedA
    dynamic_speed_b := f.localIOData.dynamicSpeedB
    dynamic_valid_flags := f.localIOData.DynamicValidFlags }

/-! ## Region-of-interest channel: CompoundPublisher::publishROI -/

/-- The per-entry structural copy of the ROI loop body: every named field
of one input entry assigned to the matching field of one output entry. -/
def roiToMsg (roi : Roi) : ROIMsg :=
  { id := roi.id
    distance_value := roi.distanceValue
    result_data := { distanceSafe := roi.result.distanceSafe
                     distanceValid := roi.result.distanceValid
                     resultSafe := roi.result.resultSafe
                     resultValid := roi.result.resultValid
                     taskResult := roi.result.taskResult }
    safety_data := { invalidDueToInvalidPixels := roi.safetyMembers.invalidDueToInvalidPixels
                     invalidDueToVariance := roi.safetyMembers.invalidDueToVariance
                     invalidDueToOverexposure := roi.safetyMembers.invalidDueToOverexposure
                     invalidDueToUnderexposure := roi.safetyMembers.invalidDueToUnderexposure
                     invalidDueToTemporalVariance := roi.safetyMembers.invalidDueToTemporalVariance
                     invalidDueToOutsideOfMeasurementRange :=
                       roi.safetyMembers.invalidDueToOutsideOfMeasurementRange
                     invalidDueToRetroReflectorInterference :=
                       roi.safetyMembers.invalidDueToRetroReflectorInterference
                     contaminationError := roi.safetyMembers.contaminationError
                     qualityClass := roi.safetyMembers.qualityClass
                     slotActive := roi.safetyMembers.slotActive } }

/-- Transcode routine of the region-of-interest channel: a loop over the
frame's ROI list push_backs one converted entry per input entry. -/
def publishROI (header : Header) (f : SafeVisionaryData) : ROIArrayMsg :=
  f.roiData.foldl (fun msg roi => { msg with rois := msg.rois ++ [roiToMsg roi] })
    { header := header, rois := [] }

/-! ## Field-evaluation channel: CompoundPublisher::publishFieldInformation -/

/-- The per-entry structural copy of the field-information loop body. -/
def fieldToMsg (field : FieldInformation) : FieldInformationMsg :=
  { field_id := field.fieldID
    field_set_id := field.fieldSetID
    field_active := field.fieldActive
    field_result := field.fieldResult
    eval_method := field.evalMethod }

/-- Transcode routine of the field-evaluation channel: a loop over the
frame's field-information list push_backs one converted entry per input
entry. -/
def publishFieldInformation (header : Header) (f : SafeVisionaryData) :
    FieldInformationArrayMsg :=
  f.fieldInformation.foldl
    (fun msg field => { msg with fields := msg.fields ++ [fieldToMsg field] })
    { header := header, fields := [] }

/-! ## The per-frame entry point: CompoundPublisher::publish -/

/-- Live subscriber counts reported by the transport, one per output
channel (the getNumSubscribers() values at call time). -/
structure Subs where
  cameraInfo : Nat
  points : Nat
  depth : Nat
  intensity : Nat
  state : Nat
  imu : Nat
  deviceStatus : Nat
  cameraIOCount : Nat
  roi : Nat
  fieldInfo : Nat
  deriving DecidableEq, Repr

/-- Everything published by one call of the entry point: per channel, the
record handed to the transport, or none when nothing was published on that
channel. -/
structure Published where
  cameraInfo : Option CameraInfo
  points : Option PointCloud2
  depth : Option ImageMsg
  intensity : Option ImageMsg
  state : Option ImageMsg
  imu : Option ImuMsg
  deviceStatus : Option DeviceStatusMsg
  cameraIOMsg : Option CameraIOMsg
  roi : Option ROIArrayMsg
  fieldInfo : Option FieldInformationArrayMsg
  deriving DecidableEq, Repr

/-- Which transcode routines one call of the entry point invokes: exactly
the channels whose subscriber count is positive (the if-guards of
CompoundPublisher::publish). -/
structure InvokeLog where
  cameraInfo : Bool
  points : Bool
  depth : Bool
  intensity : Bool
  state : Bool
  imu : Bool
  deviceStatus : Bool
  cameraIOFlag : Bool
  roi : Bool
  fieldInfo : Bool
  deriving DecidableEq, Repr

/-- The invocation decisions of one entry-point call, straight from its ten
subscriber-count guards. -/
def publishInvocations (subs : Subs) : InvokeLog :=
  { cameraInfo := 0 < subs.cameraInfo
    points := 0 < subs.points
    depth := 0 < subs.depth
    intensity := 0 < subs.intensity
    state := 0 < subs.state
    imu := 0 < subs.imu
    deviceStatus := 0 < subs.deviceStatus
    cameraIOFlag := 0 < subs.cameraIOCount
    roi := 0 < subs.roi
    fieldInfo := 0 < subs.fieldInfo }

/-- The per-frame entry point CompoundPublisher::publish: each channel is
gated on getNumSubscribers() > 0, and on yes its transcode routine runs on
the same header and frame.  All routines publish unconditionally except the
point-cloud one, which can return early on the size-mismatch check. -/
def publish (subs : Subs) (header : Header) (f : SafeVisionaryData) : Published :=
  { cameraInfo := if 0 < subs.cameraInfo then some (publishCameraInfo header f) else none
    points := if 0 < subs.points then publishPointCloud header f else none
    depth := if 0 < subs.depth then some (publishDepthImage header f) else none
    intensity := if 0 < subs.intensity then some (publishIntensityImage header f) else none
    state := if 0 < subs.state then some (publishStateMap header f) else none
    imu := if 0 < subs.imu then some (publishIMUData header f) else none
    deviceStatus := if 0 < subs.deviceStatus then some (publishDeviceStatus header f) else none
    cameraIOMsg := if 0 < subs.cameraIOCount then some (publishIOs header f) else none
    roi := if 0 < subs.roi then some (publishROI header f) else none
    fieldInfo := if 0 < subs.fieldInfo then some (publishFieldInformation header f) else none }

/-- Transport-side log state: the sequence of per-frame Published records
delivered so far.  CompoundPublisher itself holds only its advertised
publisher handles, which transcoding never mutates; the log models the
transport's accumulating delivery side effects across calls. -/
def TransportLog : Type := List Published

/-- One entry-point call as a state transition: it produces the frame's
Published record from its arguments alone and appends it to the transport
log; no other state is read or written. -/
def publishRun (log : TransportLog) (subs : Subs) (header : Header)
    (f : SafeVisionaryData) : Published × TransportLog :=
  (publish subs header f, List.append log [publish subs header f])

/-! ## Concrete example inputs -/

/-- Example metadata record. -/
def header0 : Header := { stamp := 7, frame_id := "camera" }

/-- Example calibration parameters. -/
def params0 : CameraParameters :=
  { cx := 10, cy := 11, fx := 12, fy := 13, k1 := 1, k2 := 2, p1 := 3, p2 := 4, k3 := 5 }

/-- Example inertial record. -/
def imu0 : IMUData :=
  { angularVelocity := { X := 1, Y := 2, Z := 3 }
    acceleration := { X := 4, Y := 5, Z := 6 }
    orientation := { X := 0, Y := 0, Z := 0, W := 1 } }

/-- Example device-status record. -/
def dsd0 : DeviceStatusData :=
  { generalStatus := { applicationError := false, contaminationError := false
                       contaminationWarning := false, deadZoneDetection := false
                       deviceError := false, temperatureWarning := false
                       runModeActive := true, waitForCluster := false
                       waitForInput := false }
    COPNonSaftyRelated := 0
    COPSaftyRelated := 1
    COPResetRequired := 0
    activeMonitoringCase := { currentCaseNumberMonitoringCase1 := 1
                              currentCaseNumberMonitoringCase2 := 0
                              currentCaseNumberMonitoringCase3 := 0
                              currentCaseNumberMonitoringCase4 := 0 }
    contaminationLevel := 2 }

/-- Example local I/O record. -/
def lio0 : LocalIOData :=
  { universalIOConfigured := { pin5 := true, pin6 := false, pin7 := false, pin8 := false }
    universalIODirection := { pin5 := false, pin6 := true, pin7 := false, pin8 := false }
    universalIOInputValue := { pin5 := false, pin6 := false, pin7 := true, pin8 := false }
    universalIOOutputValue := { pin5 := false, pin6 := false, pin7 := false, pin8 := true }
    ossdsState := { stateOSSD1A := 1, stateOSSD1B := 1, stateOSSD2A := 0, stateOSSD2B := 0 }
    ossdsDynCount := 3
    ossdsCRC := 4
    ossdsIOStatus := 5
    dynamicSpeedA := 6
    dynamicSpeedB := 7
    DynamicValidFlags := 8 }

/-- Example region-of-interest entry. -/
def roi0 : Roi :=
  { id := 9
    distanceValue := 1500
    result := { distanceSafe := true, distanceValid := true, resultSafe := false
                resultValid := true, taskResult := 2 }
    safetyMembers := { invalidDueToInvalidPixels := false, invalidDueToVariance := false
                       invalidDueToOverexposure := true, invalidDueToUnderexposure := false
                       invalidDueToTemporalVariance := false
                       invalidDueToOutsideOfMeasurementRange := false
                       invalidDueToRetroReflectorInterference := false
                       contaminationError := false, qualityClass := 1, slotActive := true } }

/-- Example field-evaluation entry. -/
def fieldInfo0 : FieldInformation :=
  { fieldID := 2, fieldSetID := 3, fieldActive := true, fieldResult := 1, evalMethod := 0 }

/-- Example frame with a 1 x 2 pixel grid whose point vector, intensity map
and height x width all have length 2 (the point-cloud precondition holds). -/
def frameA : SafeVisionaryData :=
  { height := 1
    width := 2
    cameraParameters := params0
    distanceMap := [100, 200]
    intensityMap := [513, 2]
    stateMap := [1, 0]
    imuData := imu0
    deviceStatus := 3
    deviceStatusData := dsd0
    localIOData := lio0
    roiData := [roi0]
    fieldInformation := [fieldInfo0]
    pointVec := [{ x := 1, y := 2, z := 3 }, { x := 4, y := 5, z := 6 }] }

/-- Example frame violating the point-cloud precondition: one generated
point but two intensity samples. -/
def frameBad : SafeVisionaryData :=
  { frameA with pointVec := [{ x := 1, y := 2, z := 3 }] }

/-- Subscriber state with one consumer on every channel. -/
def subsAll1 : Subs :=
  { cameraInfo := 1, points := 1, depth := 1, intensity := 1, state := 1
    imu := 1, deviceStatus := 1, cameraIOCount := 1, roi := 1, fieldInfo := 1 }

/-! ## Byte-buffer lemmas -/

theorem bytesLE_length (n v : Nat) : (bytesLE n v).length = n := by
  induction n generalizing v with
  | zero => rfl
  | succ n ih => simp [bytesLE, ih]

theorem pointBytes_length (p : PointXYZ) : (pointBytes p).length = 3 * floatSize := by
  simp [pointBytes, bytesLE_length, floatSize]

theorem vecBytes_length (w : Nat) (vs : List Nat) :
    (vecBytes w vs).length = w * vs.length := by
  induction vs with
  | nil => simp [vecBytes]
  | cons v vs ih => simp [vecBytes, bytesLE_length, ih, Nat.mul_succ]; ring

theorem set_append_len (pre : List Nat) (b r0 : Nat) (rs : List Nat) :
    (pre ++ r0 :: rs).set pre.length b = pre ++ b :: rs := by
  induction pre with
  | nil => rfl
  | cons a pre ih => simp [List.set, ih]

theorem writeBytes_append (bs : List Nat) (pre rest : List Nat)
    (h : bs.length ≤ rest.length) :
    writeBytes (pre ++ rest) pre.length bs = pre ++ (bs ++ rest.drop bs.length) := by
  induction bs generalizing pre rest with
  | nil => simp [writeBytes]
  | cons b bs ih =>
      cases rest with
      | nil => simp at h
      | cons r0 rs =>
          have hlen : bs.length ≤ rs.length := by simpa using h
          calc writeBytes (pre ++ r0 :: rs) pre.length (b :: bs)
              = writeBytes ((pre ++ r0 :: rs).set pre.length b) (pre.length + 1) bs := rfl
            _ = writeBytes ((pre ++ [b]) ++ rs) (pre ++ [b]).length bs := by
                  rw [set_append_len]; simp
            _ = (pre ++ [b]) ++ (bs ++ rs.drop bs.length) := ih (pre ++ [b]) rs hlen
            _ = pre ++ (b :: bs ++ (r0 :: rs).drop (b :: bs).length) := by simp

/-- Special case of memcpy into a fresh exactly-sized buffer: the result is
precisely the copied bytes. -/
theorem writeBytes_exact (bs : List Nat) (n : Nat) (h : bs.length = n) :
    writeBytes (List.replicate n 0) 0 bs = bs := by
  have := writeBytes_append bs [] (List.replicate n 0) (by simp [h])
  simpa [h, List.drop_replicate] using this

/-! ## Packing-loop lemmas -/

/-- The flat byte image the packing loop produces: one 14-byte record per
point, the 12 coordinate bytes then the 2 intensity bytes. -/
def flatPack : List PointXYZ → List Nat → List Nat
  | p :: ps, v :: vs => pointBytes p ++ (bytesLE uint16Size v ++ flatPack ps vs)
  | _, _ => []

theorem pcPointStep_eq : pcPointStep = 14 := rfl

theorem flatPack_length (pts : List PointXYZ) (ints : List Nat)
    (h : pts.length = ints.length) :
    (flatPack pts ints).length = pts.length * pcPointStep := by
  induction pts generalizing ints with
  | nil => simp [flatPack]
  | cons p ps ih =>
      cases ints with
      | nil => simp at h
      | cons v vs =>
          have h' : ps.length = vs.length := by simpa using h
          simp [flatPack, pointBytes_length, bytesLE_length, ih vs h',
            pcPointStep_eq, floatSize, uint16Size]
          ring

theorem packLoop_eq (pts : List PointXYZ) (ints : List Nat) (i : Nat)
    (pre rest : List Nat) (hlen : pts.length = ints.length)
    (hpre : pre.length = i * pcPointStep)
    (hrest : rest.length = pts.length * pcPointStep) :
    packLoop pts ints i (pre ++ rest) = pre ++ flatPack pts ints := by
  induction pts generalizing ints i pre rest with
  | nil =>
      cases ints with
      | nil =>
          have : rest = [] := by
            cases rest with
            | nil => rfl
            | cons r rs => simp [pcPointStep_eq] at hrest
          simp [packLoop, flatPack, this]
      | cons v vs => simp at hlen
  | cons p ps ih =>
      cases ints with
      | nil => simp at hlen
      | cons v vs =>
          have hlen' : ps.length = vs.length := by simpa using hlen
          have hrest14 : rest.length = ps.length * pcPointStep + 14 := by
            rw [hrest, pcPointStep_eq]; simp only [List.length_cons]; omega
          have h12 : (pointBytes p).length ≤ rest.length := by
            rw [pointBytes_length, hrest14]; simp [floatSize]
          have step1 : writeBytes (pre ++ rest) (i * pcPointStep) (pointBytes p)
              = pre ++ (pointBytes p ++ rest.drop (pointBytes p).length) := by
            rw [← hpre]; exact writeBytes_append _ _ _ h12
          have hdrop12 : (rest.drop (pointBytes p).length).length
              = ps.length * pcPointStep + 2 := by
            rw [List.length_drop, pointBytes_length, hrest14]; simp [floatSize]
          have h2 : (bytesLE uint16Size v).length ≤ (rest.drop (pointBytes p).length).length := by
            rw [bytesLE_length, hdrop12]; simp [uint16Size]
          have step2 : writeBytes (pre ++ (pointBytes p ++ rest.drop (pointBytes p).length))
                (i * pcPointStep + 3 * floatSize) (bytesLE uint16Size v)
              = (pre ++ pointBytes p)
                ++ (bytesLE uint16Size v
                    ++ (rest.drop (pointBytes p).length).drop (bytesLE uint16Size v).length) := by
            have hplen : (pre ++ pointBytes p).length = i * pcPointStep + 3 * floatSize := by
              simp [pointBytes_length, hpre]
            rw [← List.append_assoc, ← hplen]
            exact writeBytes_append _ _ _ h2
          have hdrop14 : (rest.drop (pointBytes p).length).drop (bytesLE uint16Size v).length
              = rest.drop pcPointStep := by
            rw [List.drop_drop, pointBytes_length, bytesLE_length]
            simp [pcPointStep_eq, floatSize, uint16Size]
          have hpre' : (pre ++ pointBytes p ++ bytesLE uint16Size v).length
              = (i + 1) * pcPointStep := by
            simp [pointBytes_length, bytesLE_length, hpre, pcPointStep_eq,
              floatSize, uint16Size]
            ring
          have hrest' : (rest.drop pcPointStep).length = ps.length * pcPointStep := by
            rw [List.length_drop, hrest14]; simp [pcPointStep_eq]
          calc packLoop (p :: ps) (v :: vs) i (pre ++ rest)
              = packLoop ps vs (i + 1)
                  (writeBytes (writeBytes (pre ++ rest) (i * pcPointStep) (pointBytes p))
                    (i * pcPointStep + 3 * floatSize) (bytesLE uint16Size v)) := rfl
            _ = packLoop ps vs (i + 1)
                  ((pre ++ pointBytes p ++ bytesLE uint16Size v) ++ rest.drop pcPointStep) := by
                  rw [step1, step2, hdrop14]; simp
            _ = (pre ++ pointBytes p ++ bytesLE uint16Size v) ++ flatPack ps vs :=
                  ih vs (i + 1) _ _ hlen' hpre' hrest'
            _ = pre ++ flatPack (p :: ps) (v :: vs) := by simp [flatPack]

/-- The 12 bytes at offset i x 14 of the packed image are the memory image
of point i. -/
theorem flatPack_slice_point (pts : List PointXYZ) (ints : List Nat) (i : Nat)
    (hp : i < pts.length) (hv : i < ints.length) :
    ((flatPack pts ints).drop (i * pcPointStep)).take (3 * floatSize)
      = pointBytes (pts.get ⟨i, hp⟩) := by
  induction i generalizing pts ints with
  | zero =>
      cases pts with
      | nil => simp at hp
      | cons p ps =>
          cases ints with
          | nil => simp at hv
          | cons v vs =>
              simp only [flatPack, Nat.zero_mul, List.drop_zero]
              rw [List.take_left' (pointBytes_length p)]
              rfl
  | succ i ih =>
      cases pts with
      | nil => simp at hp
      | cons p ps =>
          cases ints with
          | nil => simp at hv
          | cons v vs =>
              have hp' : i < ps.length := by simpa using hp
              have hv' : i < vs.length := by simpa using hv
              have hstep : (i + 1) * pcPointStep = pcPointStep + i * pcPointStep := by ring
              have hhead : (pointBytes p ++ (bytesLE uint16Size v ++ flatPack ps vs)).drop pcPointStep
                  = flatPack ps vs := by
                rw [← List.append_assoc]
                refine List.drop_left' ?_
                simp [pointBytes_length, bytesLE_length, pcPointStep_eq, floatSize, uint16Size]
              calc ((flatPack (p :: ps) (v :: vs)).drop ((i + 1) * pcPointStep)).take (3 * floatSize)
                  = (((pointBytes p ++ (bytesLE uint16Size v ++ flatPack ps vs)).drop pcPointStep).drop
                      (i * pcPointStep)).take (3 * floatSize) := by
                    rw [hstep, ← List.drop_drop]; rfl
                _ = ((flatPack ps vs).drop (i * pcPointStep)).take (3 * floatSize) := by rw [hhead]
                _ = pointBytes (ps.get ⟨i, hp'⟩) := ih ps vs hp' hv'

/-- The 2 bytes at offset i x 14 + 12 of the packed image are the memory
image of intensity sample i. -/
theorem flatPack_slice_intensity (pts : List PointXYZ) (ints : List Nat) (i : Nat)
    (hp : i < pts.length) (hv : i < ints.length) :
    ((flatPack pts ints).drop (i * pcPointStep + 3 * floatSize)).take uint16Size
      = bytesLE uint16Size (ints.get ⟨i, hv⟩) := by
  induction i generalizing pts ints with
  | zero =>
      cases pts with
      | nil => simp at hp
      | cons p ps =>
          cases ints with
          | nil => simp at hv
          | cons v vs =>
              simp only [flatPack, Nat.zero_mul, Nat.zero_add]
              rw [List.drop_left' (pointBytes_length p),
                List.take_left' (bytesLE_length uint16Size v)]
              rfl
  | succ i ih =>
      cases pts with
      | nil => simp at hp
      | cons p ps =>
          cases ints with
          | nil => simp at hv
          | cons v vs =>
              have hp' : i < ps.length := by simpa using hp
              have hv' : i < vs.length := by simpa using hv
              have hstep : (i + 1) * pcPointStep + 3 * floatSize
                  = pcPointStep + (i * pcPointStep + 3 * floatSize) := by ring
              have hhead : (pointBytes p ++ (bytesLE uint16Size v ++ flatPack ps vs)).drop pcPointStep
                  = flatPack ps vs := by
                rw [← List.append_assoc]
                refine List.drop_left' ?_
                simp [pointBytes_length, bytesLE_length, pcPointStep_eq, floatSize, uint16Size]
              calc ((flatPack (p :: ps) (v :: vs)).drop ((i + 1) * pcPointStep + 3 * floatSize)).take uint16Size
                  = (((pointBytes p ++ (bytesLE uint16Size v ++ flatPack ps vs)).drop pcPointStep).drop
                      (i * pcPointStep + 3 * floatSize)).take uint16Size := by
                    rw [hstep, ← List.drop_drop]; rfl
                _ = ((flatPack ps vs).drop (i * pcPointStep + 3 * floatSize)).take uint16Size := by
                    rw [hhead]
                _ = bytesLE uint16Size (vs.get ⟨i, hv'⟩) := ih ps vs hp' hv'

/-! ## Channel-gating helper lemmas -/

theorem isSome_ite {α : Type} (c : Prop) [Decidable c] (a : α) :
    (if c then some a else none).isSome = true ↔ c := by
  split <;> simp [*]

theorem publishPointCloud_isSome (header : Header) (f : SafeVisionaryData) :
    (publishPointCloud header f).isSome = true ↔
      f.intensityMap.length = f.pointVec.length := by
  unfold publishPointCloud publishPointCloudT
  by_cases h : f.intensityMap.length = f.pointVec.length <;> simp [h]

theorem publishPointCloud_none (header : Header) (f : SafeVisionaryData)
    (h : f.intensityMap.length ≠ f.pointVec.length) :
    publishPointCloud header f = none := by
  unfold publishPointCloud publishPointCloudT
  simp [h]

theorem publishPointCloud_header (header : Header) (f : SafeVisionaryData)
    (m : PointCloud2) (h : publishPointCloud header f = some m) :
    m.header = header := by
  unfold publishPointCloud publishPointCloudT at h
  by_cases hc : f.intensityMap.length = f.pointVec.length
  · simp only [hc, ne_eq, not_true_eq_false, if_false, ite_false, Option.some.injEq] at h
    rw [← h]
  · simp [hc] at h

theorem publishROI_rois (header : Header) (f : SafeVisionaryData) :
    publishROI header f = { header := header, rois := f.roiData.map roiToMsg } := by
  unfold publishROI
  have aux : ∀ (l : List Roi) (msg : ROIArrayMsg),
      l.foldl (fun msg roi => { msg with rois := msg.rois ++ [roiToMsg roi] }) msg
        = { header := msg.header, rois := msg.rois ++ l.map roiToMsg } := by
    intro l
    induction l with
    | nil => intro msg; simp
    | cons roi rest ih => intro msg; simp [List.foldl_cons, ih]
  simpa using aux f.roiData { header := header, rois := [] }

theorem publishFieldInformation_fields (header : Header) (f : SafeVisionaryData) :
    publishFieldInformation header f
      = { header := header, fields := f.fieldInformation.map fieldToMsg } := by
  unfold publishFieldInformation
  have aux : ∀ (l : List FieldInformation) (msg : FieldInformationArrayMsg),
      l.foldl (fun msg field => { msg with fields := msg.fields ++ [fieldToMsg field] }) msg
        = { header := msg.header, fields := msg.fields ++ l.map fieldToMsg } := by
    intro l
    induction l with
    | nil => intro msg; simp
    | cons field rest ih => intro msg; simp [List.foldl_cons, ih]
  simpa using aux f.fieldInformation { header := header, fields := [] }

/-! ## Claim theorems -/

/-- Claim C1: for every frame whose generated point list, intensity map and
height x width pixel count all have equal length, the published point-cloud
buffer has length exactly height x width x 14 with point_step 14 and field
offsets x:0, y:4, z:8, intensity:12, and for every index i the bytes at
positions i x 14 to i x 14 + 11 are the native (little-endian) byte image
of point i's three 32-bit float coordinates while the bytes at
i x 14 + 12 and i x 14 + 13 are the native byte image of 16-bit intensity
sample i, with no numeric conversion. -/
theorem pointcloud_packing (header : Header) (f : SafeVisionaryData)
    (h1 : f.pointVec.length = f.intensityMap.length)
    (h2 : f.intensityMap.length = f.height * f.width) :
    ∃ m, publishPointCloud header f = some m ∧
      m.data.length = f.height * f.width * pcPointStep ∧
      m.point_step = pcPointStep ∧
      pcPointStep = 14 ∧
      m.fields.map PointField.name = ["x", "y", "z", "intensity"] ∧
      m.fields.map PointField.offset = [0, 4, 8, 12] ∧
      ∀ i : Nat, ∀ (hp : i < f.pointVec.length) (hv : i < f.intensityMap.length),
        (m.data.drop (i * 14)).take 12 = pointBytes (f.pointVec.get ⟨i, hp⟩) ∧
        (m.data.drop (i * 14 + 12)).take 2 = bytesLE 2 (f.intensityMap.get ⟨i, hv⟩) := by
  have hpl : f.pointVec.length = f.height * f.width := h1.trans h2
  have hne : ¬ f.intensityMap.length ≠ f.pointVec.length := by rw [h1]; simp
  have hsize : pcDataSize f = f.pointVec.length * pcPointStep := by
    rw [pcDataSize, pcRowStep, hpl, pcPointStep_eq]; ring
  have hdata : packLoop f.pointVec f.intensityMap 0 (List.replicate (pcDataSize f) 0)
      = flatPack f.pointVec f.intensityMap := by
    have h := packLoop_eq f.pointVec f.intensityMap 0 [] (List.replicate (pcDataSize f) 0)
      h1 (by simp) (by simp [hsize])
    simpa using h
  refine ⟨{ header := header, height := f.height, width := f.width, is_dense := false,
            is_bigendian := false, fields := pcFields, point_step := pcPointStep,
            row_step := pcRowStep f, data := flatPack f.pointVec f.intensityMap },
    ?_, ?_, rfl, rfl, rfl, rfl, ?_⟩
  · simp [publishPointCloud, publishPointCloudT, hne, hdata]
  · simp only
    rw [flatPack_length f.pointVec f.intensityMap h1, hpl]
  · intro i hp hv
    exact ⟨flatPack_slice_point f.pointVec f.intensityMap i hp hv,
      flatPack_slice_intensity f.pointVec f.intensityMap i hp hv⟩

/-- Witness for C1: the packing theorem applied to the concrete 1 x 2 frame
frameA, whose point list, intensity map and pixel count all have length 2;
in particular the point-cloud channel publishes a record there. -/
theorem pointcloud_packing_witness : (publishPointCloud header0 frameA).isSome = true := by
  obtain ⟨m, hm, _⟩ := pointcloud_packing header0 frameA rfl rfl
  rw [hm]; rfl

/-- Claim C9 helper: pure bound equivalence for a strided write pattern. -/
theorem writeBounds_iff (L N : Nat) :
    (∀ i, i < L → i * 14 + 14 ≤ 14 * N) ↔ L ≤ N := by
  constructor
  · intro h
    rcases Nat.eq_zero_or_pos L with h0 | h0
    · omega
    · have := h (L - 1) (by omega); omega
  · intro hLN i hi; omega

/-- Claim C9: in the packing loop every byte write (the 14 bytes of record
i, for each i below the generated point count) lands inside the allocated
buffer of pcDataSize bytes if and only if the point count is at most
height x width; and under the precondition that the point count equals the
intensity-map length and that equals height x width, every write is in
bounds, so no out-of-bounds access is reachable. -/
theorem pointcloud_write_bounds (f : SafeVisionaryData) :
    ((∀ i, i < f.pointVec.length → i * pcPointStep + pcPointStep ≤ pcDataSize f) ↔
      f.pointVec.length ≤ f.height * f.width) ∧
    (f.pointVec.length = f.intensityMap.length →
      f.intensityMap.length = f.height * f.width →
      ∀ i, i < f.pointVec.length → i * pcPointStep + pcPointStep ≤ pcDataSize f) := by
  have hsize : pcDataSize f = 14 * (f.height * f.width) := by
    rw [pcDataSize, pcRowStep, pcPointStep_eq]; ring
  constructor
  · simpa only [hsize, pcPointStep_eq]
      using writeBounds_iff f.pointVec.length (f.height * f.width)
  · intro h1 h2 i hi
    rw [hsize, pcPointStep_eq]
    have hL : f.pointVec.length ≤ f.height * f.width := by rw [h1, h2]
    exact (writeBounds_iff f.pointVec.length (f.height * f.width)).2 hL i hi

/-- Witness for C9: on the concrete frame frameA (two points on a 1 x 2
grid, precondition satisfied) the write of record 1 stays in bounds. -/
theorem pointcloud_write_bounds_witness :
    1 * pcPointStep + pcPointStep ≤ pcDataSize frameA :=
  (pointcloud_write_bounds frameA).2 rfl rfl 1 (by decide)

/-- Claim C5: the calibration output's distortion vector has length 5 and
equals [k1, k2, p1, p2, k3] in that order; the 3 x 3 projection layout has
positions 0, 2, 4, 5, 8 equal to fx, cx, fy, cy, 1 and every other
position equal to 0; the output's height and width equal the frame's. -/
theorem camera_info_layout (header : Header) (f : SafeVisionaryData) :
    (publishCameraInfo header f).D
        = [f.cameraParameters.k1, f.cameraParameters.k2, f.cameraParameters.p1,
           f.cameraParameters.p2, f.cameraParameters.k3] ∧
    (publishCameraInfo header f).D.length = 5 ∧
    (publishCameraInfo header f).K
        = [f.cameraParameters.fx, 0, f.cameraParameters.cx,
           0, f.cameraParameters.fy, f.cameraParameters.cy,
           0, 0, 1] ∧
    (publishCameraInfo header f).height = f.height ∧
    (publishCameraInfo header f).width = f.width :=
  ⟨rfl, rfl, rfl, rfl, rfl⟩

/-- Claim C6: the region-of-interest output list has the same length as the
frame's ROI input list and the field-evaluation output list has the same
length as the field-evaluation input list, and in both channels entry i of
the output is the structural copy of entry i of the input. -/
theorem roi_field_entry_order (header : Header) (f : SafeVisionaryData) :
    (publishROI header f).rois.length = f.roiData.length ∧
    (∀ i : Nat, (publishROI header f).rois[i]? = (f.roiData[i]?).map roiToMsg) ∧
    (publishFieldInformation header f).fields.length = f.fieldInformation.length ∧
    (∀ i : Nat, (publishFieldInformation header f).fields[i]?
        = (f.fieldInformation[i]?).map fieldToMsg) := by
  refine ⟨?_, ?_, ?_, ?_⟩
  · rw [publishROI_rois]; simp
  · intro i; rw [publishROI_rois]; simp
  · rw [publishFieldInformation_fields]; simp
  · intro i; rw [publishFieldInformation_fields]; simp

/-- Claim C10: the raster-image helpers copy all vec.size() samples
(2 bytes each for the 16-bit helper, 1 byte each for the 8-bit helper)
into a raster of height x width samples with no length check, and under
the precondition that the source length equals height x width the copy is
total and exact: the raster's bytes are precisely the source samples'
native bytes. -/
theorem image_copy_exact (header : Header) (f : SafeVisionaryData) (vec : List Nat) :
    (vecBytes uint16Size vec).length = uint16Size * vec.length ∧
    (vecBytes 1 vec).length = 1 * vec.length ∧
    (vec.length = f.height * f.width →
      (Vec16ToImage header f vec).data = vecBytes uint16Size vec ∧
      (Vec8ToImage header f vec).data = vecBytes 1 vec) := by
  refine ⟨vecBytes_length _ _, vecBytes_length _ _, ?_⟩
  intro h
  constructor
  · exact writeBytes_exact _ _ (by rw [vecBytes_length, h]; ring)
  · exact writeBytes_exact _ _ (by rw [vecBytes_length, h]; ring)

/-- Witness for C10: both helpers applied to a concrete two-sample vector
on the 1 x 2 frame frameA copy it exactly. -/
theorem image_copy_exact_witness :
    (Vec16ToImage header0 frameA [9, 10]).data = vecBytes uint16Size [9, 10] ∧
    (Vec8ToImage header0 frameA [9, 10]).data = vecBytes 1 [9, 10] :=
  (image_copy_exact header0 frameA [9, 10]).2.2 (by decide)

/-- Counterexample to C2 as stated: with one consumer on the point-cloud
channel and the mismatched frame frameBad, the transcode routine is
invoked yet no record is published, so invoked-and-published is not
equivalent to consumer count > 0. -/
theorem demand_gate_counterexample :
    ¬ ((((publishInvocations subsAll1).points = true) ∧
        ((publish subsAll1 header0 frameBad).points.isSome = true)) ↔
      0 < subsAll1.points) := by decide

/-- Claim C2 as amended: every channel's transcode routine is invoked iff
its consumer count is positive (so a channel with zero consumers does no
transcoding work and publishes nothing), and the invoked routine's record
is published iff the count is positive — except the point-cloud channel,
whose record is published iff additionally the intensity-map length equals
the generated point count. -/
theorem demand_gate (subs : Subs) (header : Header) (f : SafeVisionaryData) :
    ((publishInvocations subs).cameraInfo = true ↔ 0 < subs.cameraInfo) ∧
    ((publishInvocations subs).points = true ↔ 0 < subs.points) ∧
    ((publishInvocations subs).depth = true ↔ 0 < subs.depth) ∧
    ((publishInvocations subs).intensity = true ↔ 0 < subs.intensity) ∧
    ((publishInvocations subs).state = true ↔ 0 < subs.state) ∧
    ((publishInvocations subs).imu = true ↔ 0 < subs.imu) ∧
    ((publishInvocations subs).deviceStatus = true ↔ 0 < subs.deviceStatus) ∧
    ((publishInvocations subs).cameraIOFlag = true ↔ 0 < subs.cameraIOCount) ∧
    ((publishInvocations subs).roi = true ↔ 0 < subs.roi) ∧
    ((publishInvocations subs).fieldInfo = true ↔ 0 < subs.fieldInfo) ∧
    ((publish subs header f).cameraInfo.isSome = true ↔ 0 < subs.cameraInfo) ∧
    ((publish subs header f).points.isSome = true ↔
      (0 < subs.points ∧ f.intensityMap.length = f.pointVec.length)) ∧
    ((publish subs header f).depth.isSome = true ↔ 0 < subs.depth) ∧
    ((publish subs header f).intensity.isSome = true ↔ 0 < subs.intensity) ∧
    ((publish subs header f).state.isSome = true ↔ 0 < subs.state) ∧
    ((publish subs header f).imu.isSome = true ↔ 0 < subs.imu) ∧
    ((publish subs header f).deviceStatus.isSome = true ↔ 0 < subs.deviceStatus) ∧
    ((publish subs header f).cameraIOMsg.isSome = true ↔ 0 < subs.cameraIOCount) ∧
    ((publish subs header f).roi.isSome = true ↔ 0 < subs.roi) ∧
    ((publish subs header f).fieldInfo.isSome = true ↔ 0 < subs.fieldInfo) := by
  refine ⟨by simp [publishInvocations], by simp [publishInvocations],
    by simp [publishInvocations], by simp [publishInvocations],
    by simp [publishInvocations], by simp [publishInvocations],
    by simp [publishInvocations], by simp [publishInvocations],
    by simp [publishInvocations], by simp [publishInvocations],
    isSome_ite _ _, ?_, isSome_ite _ _, isSome_ite _ _, isSome_ite _ _,
    isSome_ite _ _, isSome_ite _ _, isSome_ite _ _, isSome_ite _ _, isSome_ite _ _⟩
  constructor
  · intro h
    by_cases hc : 0 < subs.points
    · refine ⟨hc, ?_⟩
      rw [show (publish subs header f).points = publishPointCloud header f from by
        simp [publish, hc]] at h
      exact (publishPointCloud_isSome header f).1 h
    · simp [publish, hc] at h
  · rintro ⟨hc, hlen⟩
    rw [show (publish subs header f).points = publishPointCloud header f from by
      simp [publish, hc]]
    exact (publishPointCloud_isSome header f).2 hlen

/-- Claim C3: when the generated point list's length differs from the
intensity map's length, the point-cloud channel publishes nothing for the
frame while every other channel with at least one consumer still publishes
its record. -/
theorem mismatch_isolation (subs : Subs) (header : Header) (f : SafeVisionaryData)
    (h : f.pointVec.length ≠ f.intensityMap.length) :
    (publish subs header f).points = none ∧
    (0 < subs.cameraInfo →
      (publish subs header f).cameraInfo = some (publishCameraInfo header f)) ∧
    (0 < subs.depth → (publish subs header f).depth = some (publishDepthImage header f)) ∧
    (0 < subs.intensity →
      (publish subs header f).intensity = some (publishIntensityImage header f)) ∧
    (0 < subs.state → (publish subs header f).state = some (publishStateMap header f)) ∧
    (0 < subs.imu → (publish subs header f).imu = some (publishIMUData header f)) ∧
    (0 < subs.deviceStatus →
      (publish subs header f).deviceStatus = some (publishDeviceStatus header f)) ∧
    (0 < subs.cameraIOCount →
      (publish subs header f).cameraIOMsg = some (publishIOs header f)) ∧
    (0 < subs.roi → (publish subs header f).roi = some (publishROI header f)) ∧
    (0 < subs.fieldInfo →
      (publish subs header f).fieldInfo = some (publishFieldInformation header f)) := by
  refine ⟨?_, fun hc => by simp [publish, hc], fun hc => by simp [publish, hc],
    fun hc => by simp [publish, hc], fun hc => by simp [publish, hc],
    fun hc => by simp [publish, hc], fun hc => by simp [publish, hc],
    fun hc => by simp [publish, hc], fun hc => by simp [publish, hc],
    fun hc => by simp [publish, hc]⟩
  by_cases hc : 0 < subs.points <;>
    simp [publish, hc, publishPointCloud_none header f (Ne.symm h)]

/-- Witness for C3: on the mismatched frame frameBad with one consumer per
channel, the point-cloud channel publishes nothing while the inertial
channel still publishes its record. -/
theorem mismatch_isolation_witness :
    (publish subsAll1 header0 frameBad).points = none ∧
    (publish subsAll1 header0 frameBad).imu = some (publishIMUData header0 frameBad) := by
  have h := mismatch_isolation subsAll1 header0 frameBad (by decide)
  exact ⟨h.1, h.2.2.2.2.2.1 (by decide)⟩

/-- Counterexample to C4 as stated: on the mismatched frame frameBad the
PointBuffer allocation does take place (the buffer is resized to its full
size before the precondition check), so it is false that a violated
precondition prevents the allocation. -/
theorem alloc_order_counterexample :
    ¬ (frameBad.pointVec.length ≠ frameBad.intensityMap.length →
        PCEvent.alloc (pcDataSize frameBad) ∉ pcTrace header0 frameBad) := by decide

/-- Claim C4 as amended: the point-cloud transcode allocates the
PointBuffer at its full size first, then performs the generation and
transform calls, then checks the precondition; when the check fails the
already-allocated buffer is discarded and nothing is published, and the
record is published only after the check passes. -/
theorem alloc_order (header : Header) (f : SafeVisionaryData) :
    (pcTrace header f)[0]? = some (PCEvent.alloc (pcDataSize f)) ∧
    (pcTrace header f)[1]? = some PCEvent.generateCall ∧
    (pcTrace header f)[2]? = some PCEvent.transformCall ∧
    (f.intensityMap.length ≠ f.pointVec.length →
      (pcTrace header f)[3]? = some (PCEvent.checkMismatch true) ∧
      PCEvent.publishCloud ∉ pcTrace header f ∧
      publishPointCloud header f = none) ∧
    (f.intensityMap.length = f.pointVec.length →
      (pcTrace header f)[3]? = some (PCEvent.checkMismatch false) ∧
      (pcTrace header f)[4]? = some PCEvent.publishCloud) := by
  by_cases hc : f.intensityMap.length = f.pointVec.length <;>
    simp [pcTrace, publishPointCloudT, publishPointCloud, hc]

/-- Witness for C4 as amended: on the mismatched frame frameBad the
allocation event is first in the trace and nothing is published. -/
theorem alloc_order_witness :
    publishPointCloud header0 frameBad = none ∧
    (pcTrace header0 frameBad)[0]? = some (PCEvent.alloc (pcDataSize frameBad)) := by
  have h := alloc_order header0 frameBad
  exact ⟨(h.2.2.2.1 (by decide)).2.2, h.1⟩

/-- Claim C7: every record published by one call of the entry point
carries exactly the metadata record supplied by the caller, so all
channels produced from one call carry identical metadata. -/
theorem metadata_uniform (subs : Subs) (header : Header) (f : SafeVisionaryData) :
    (∀ m, (publish subs header f).cameraInfo = some m → m.header = header) ∧
    (∀ m, (publish subs header f).points = some m → m.header = header) ∧
    (∀ m, (publish subs header f).depth = some m → m.header = header) ∧
    (∀ m, (publish subs header f).intensity = some m → m.header = header) ∧
    (∀ m, (publish subs header f).state = some m → m.header = header) ∧
    (∀ m, (publish subs header f).imu = some m → m.header = header) ∧
    (∀ m, (publish subs header f).deviceStatus = some m → m.header = header) ∧
    (∀ m, (publish subs header f).cameraIOMsg = some m → m.header = header) ∧
    (∀ m, (publish subs header f).roi = some m → m.header = header) ∧
    (∀ m, (publish subs header f).fieldInfo = some m → m.header = header) := by
  refine ⟨?_, ?_, ?_, ?_, ?_, ?_, ?_, ?_, ?_, ?_⟩ <;> intro m hm
  · by_cases hc : 0 < subs.cameraInfo
    · simp only [publish, if_pos hc, Option.some.injEq] at hm; rw [← hm]; rfl
    · simp [publish, hc] at hm
  · by_cases hc : 0 < subs.points
    · simp only [publish, if_pos hc] at hm; exact publishPointCloud_header header f m hm
    · simp [publish, hc] at hm
  · by_cases hc : 0 < subs.depth
    · simp only [publish, if_pos hc, Option.some.injEq] at hm; rw [← hm]; rfl
    · simp [publish, hc] at hm
  · by_cases hc : 0 < subs.intensity
    · simp only [publish, if_pos hc, Option.some.injEq] at hm; rw [← hm]; rfl
    · simp [publish, hc] at hm
  · by_cases hc : 0 < subs.state
    · simp only [publish, if_pos hc, Option.some.injEq] at hm; rw [← hm]; rfl
    · simp [publish, hc] at hm
  · by_cases hc : 0 < subs.imu
    · simp only [publish, if_pos hc, Option.some.injEq] at hm; rw [← hm]; rfl
    · simp [publish, hc] at hm
  · by_cases hc : 0 < subs.deviceStatus
    · simp only [publish, if_pos hc, Option.some.injEq] at hm; rw [← hm]; rfl
    · simp [publish, hc] at hm
  · by_cases hc : 0 < subs.cameraIOCount
    · simp only [publish, if_pos hc, Option.some.injEq] at hm; rw [← hm]; rfl
    · simp [publish, hc] at hm
  · by_cases hc : 0 < subs.roi
    · simp only [publish, if_pos hc, Option.some.injEq] at hm
      rw [← hm, publishROI_rois]
    · simp [publish, hc] at hm
  · by_cases hc : 0 < subs.fieldInfo
    · simp only [publish, if_pos hc, Option.some.injEq] at hm
      rw [← hm, publishFieldInformation_fields]
    · simp [publish, hc] at hm

/-- Witness for C7: the calibration record published for frameA under full
subscription carries the caller's metadata header0. -/
theorem metadata_uniform_witness :
    (publishCameraInfo header0 frameA).header = header0 :=
  (metadata_uniform subsAll1 header0 frameA).1 (publishCameraInfo header0 frameA) (by decide)

/-- Claim C8: running the transcoder twice on the same metadata, frame and
consumer state yields identical Published records, and a run's only state
effect is appending its output to the transport log, so no state alters a
repeated run. -/
theorem transcode_idempotent (log : TransportLog) (subs : Subs) (header : Header)
    (f : SafeVisionaryData) :
    (publishRun log subs header f).1
        = (publishRun (publishRun log subs header f).2 subs header f).1 ∧
    (publishRun log subs header f).2
        = List.append log [(publishRun log subs header f).1] :=
  ⟨rfl, rfl⟩

end SickSafeVisionary
